import Mathlib

/-!
Verification of the s3n-browser object-operation core.

Shallow embedding of the TypeScript sources:
  * `src/lib/responses/operation-result.ts` (the `OperationResult` envelope),
  * `src/lib/responses/s3-responses.ts` (sentinel failures),
  * `src/lib/s3/s3-queries.ts` (`checkIfObjectKeyExists`,
    `listAllS3ObjectsInDirectory`, `getSignedUrlCommand`),
  * `src/lib/s3/s3-commands.ts` (copy/move/delete/rename commands and the
    directory variants),
  * `src/lib/s3/s3-helpers.ts` (`ListObjectsV2CommandOutputToS3Object`),
  * `src/hooks/s3/use-s3-object-operations.ts` (the orchestrator dispatch),
  * the upload hook (`performUpload`, `uploadSingleFile`, batch status update).

The AWS backend is modelled by an environment of response oracles
(`S3Env`): per-call fault injection for HeadObject / CopyObject /
DeleteObject / ListObjectsV2, and the bucket content as an explicit state
(`S3State.objects`).  Every backend call is recorded in `S3State.calls` so
that theorems can speak about which network calls a command issues.
JavaScript string primitives (`split`, `endsWith`, `startsWith`,
first-occurrence `replace`, `substring`) are embedded as executable
functions on `List Char`.
-/

namespace S3nBrowser

/-! ## JavaScript string primitives -/

/-- JS `s.split(sep)` for a one-character separator, on character lists.
`splitChar c []` is `[[]]`, matching `''.split(c) === ['']`. -/
def splitChar (c : Char) : List Char → List (List Char)
  | [] => [[]]
  | x :: xs =>
    if x = c then
      [] :: splitChar c xs
    else
      match splitChar c xs with
      | [] => [[x]]
      | y :: ys => (x :: y) :: ys

/-- JS `s.split(c)` returning strings. -/
def jsSplit (s : String) (c : Char) : List String :=
  (splitChar c s.data).map (fun l => ⟨l⟩)

/-- JS `s.endsWith(t)`. -/
def jsEndsWith (s t : String) : Bool :=
  t.data.isSuffixOf s.data

/-- JS `s.startsWith(t)`. -/
def jsStartsWith (s t : String) : Bool :=
  t.data.isPrefixOf s.data

/-- JS `s.substring(n)`. -/
def jsSubstringFrom (s : String) (n : Nat) : String :=
  ⟨s.data.drop n⟩

/-- Replace the first occurrence of `pat` in the list (`none` when `pat`
does not occur), the semantics of JS `String.prototype.replace` with a
string pattern. -/
def replaceFirstAux (pat rep : List Char) : List Char → Option (List Char)
  | [] => if pat = [] then some rep else none
  | x :: xs =>
    if pat.isPrefixOf (x :: xs) then
      some (rep ++ (x :: xs).drop pat.length)
    else
      (replaceFirstAux pat rep xs).map (fun l => x :: l)

/-- JS `s.replace(pat, rep)`: first occurrence only; `s` unchanged when
`pat` does not occur. -/
def jsReplaceFirst (s pat rep : String) : String :=
  ⟨(replaceFirstAux pat.data rep.data s.data).getD s.data⟩

/-! ## The `OperationResult` envelope (operation-result.ts) -/

/-- `OperationResult<T> = { data?, error?, message?, success }`.  The opaque
`error` payload is modelled as an optional string. -/
structure OperationResult (α : Type) where
  success : Bool
  data : Option α
  message : Option String
  error : Option String
deriving DecidableEq, Repr

namespace OperationResult

/-- `OperationResult.Success(data?, message?)`. -/
def Success {α : Type} (data : Option α) (message : Option String) :
    OperationResult α :=
  ⟨true, data, message, none⟩

/-- `OperationResult.Failure(message, error?)`. -/
def Failure {α : Type} (message : String) (error : Option String) :
    OperationResult α :=
  ⟨false, none, some message, error⟩

/-- `OperationResult.ConvertFailure(r)`: re-wraps keeping message/error. -/
def ConvertFailure {α β : Type} (r : OperationResult α) : OperationResult β :=
  ⟨false, none, r.message, r.error⟩

/-- JS truthiness of `r.data` for a boolean payload: truthy exactly when the
payload is present and `true`. -/
def dataTruthy (r : OperationResult Bool) : Bool :=
  r.data.getD false

end OperationResult

/-! ## Sentinel failures (s3-responses.ts) -/

namespace S3Responses

/-- `S3Responses.DestinationKeyExist`. -/
def DestinationKeyExist : OperationResult Bool :=
  OperationResult.Failure
    "Destination key already exists, copy operation aborted"
    (some "Destination key already exists, copy operation aborted")

/-- `S3Responses.FileNameExists`. -/
def FileNameExists : OperationResult String :=
  OperationResult.Failure
    "Object already exists. Please choose a different name."
    (some "Object already exists. Please choose a different name.")

end S3Responses

/-! ## Backend model -/

/-- The AWS SDK `_Object`: only the optional `Key` field is relevant. -/
structure AwsObject where
  Key : Option String
deriving DecidableEq, Repr

/-- A network call issued to the S3 client, recorded for frame reasoning. -/
inductive S3Call where
  | head (key : String)
  | copy (src dst : String)
  | delete (key : String)
  | list (pfx : String)
deriving DecidableEq, Repr

/-- Backend response oracles.  A `some e` fault means the corresponding
`client.send` throws (transport/auth/service error `e`); `none` means the
call succeeds against the current bucket contents.  `listPages` gives the
ListObjectsV2 pages for a prefix: a request without a continuation token
returns the first page, and each page carries a continuation token exactly
when a further page follows. -/
structure S3Env where
  headFault : String → Option String
  copyFault : String → String → Option String
  deleteFault : String → Option String
  listFault : String → Option String
  listPages : String → List (List AwsObject)

/-- Bucket contents plus the log of backend calls issued so far. -/
structure S3State where
  objects : List String
  calls : List S3Call
deriving DecidableEq, Repr

/-! ## checkIfObjectKeyExists (s3-queries.ts lines 379–395) -/

/-- `checkIfObjectKeyExists(key)`: HeadObject; a NotFound service exception
becomes `Success(false)`, any other thrown error becomes a failure. -/
def checkIfObjectKeyExists (env : S3Env) (st : S3State) (key : String) :
    OperationResult Bool × S3State :=
  let st1 : S3State := { st with calls := st.calls ++ [S3Call.head key] }
  match env.headFault key with
  | some e =>
    (OperationResult.Failure "Error checking if S3 object exists" (some e), st1)
  | none =>
    if st.objects.contains key then
      (OperationResult.Success (some true) none, st1)
    else
      (OperationResult.Success (some false) none, st1)

/-! ## Single-object commands (s3-commands.ts) -/

/-- `copyS3ObjectCommand(sourceKey, destinationKey)`: probes the destination
first; a probe that succeeds with `true` short-circuits with the
`DestinationKeyExist` sentinel before any CopyObject call; otherwise the
copy is sent (a thrown copy becomes the generic copy failure). -/
def copyS3ObjectCommand (env : S3Env) (st : S3State)
    (sourceKey destinationKey : String) : OperationResult Bool × S3State :=
  let p := checkIfObjectKeyExists env st destinationKey
  let existResult := p.1
  let st1 := p.2
  if existResult.success && existResult.dataTruthy then
    (S3Responses.DestinationKeyExist, st1)
  else
    let st2 : S3State :=
      { st1 with calls := st1.calls ++ [S3Call.copy sourceKey destinationKey] }
    match env.copyFault sourceKey destinationKey with
    | some e =>
      (OperationResult.Failure "Error copying S3 object" (some e), st2)
    | none =>
      let newObjects :=
        if st2.objects.contains destinationKey then st2.objects
        else st2.objects ++ [destinationKey]
      (OperationResult.Success (some true) none,
       { st2 with objects := newObjects })

/-- `deleteS3ObjectCommand(key)`. -/
def deleteS3ObjectCommand (env : S3Env) (st : S3State) (key : String) :
    OperationResult Bool × S3State :=
  let st1 : S3State := { st with calls := st.calls ++ [S3Call.delete key] }
  match env.deleteFault key with
  | some e =>
    (OperationResult.Failure "Error deleting S3 object" (some e), st1)
  | none =>
    (OperationResult.Success (some true) none,
     { st1 with objects := st1.objects.filter (fun k => k ≠ key) })

/-- `moveS3ObjectCommand(sourceKey, destinationKey)`: copy, then delete the
source, each failure returned as-is. -/
def moveS3ObjectCommand (env : S3Env) (st : S3State)
    (sourceKey destinationKey : String) : OperationResult Bool × S3State :=
  let c := copyS3ObjectCommand env st sourceKey destinationKey
  let copyResponse := c.1
  let st1 := c.2
  if !copyResponse.success then
    (copyResponse, st1)
  else
    let d := deleteS3ObjectCommand env st1 sourceKey
    let deleteResponse := d.1
    let st2 := d.2
    if !deleteResponse.success then
      (deleteResponse, st2)
    else
      (OperationResult.Success (some true) none, st2)

/-- `renameS3ObjectCommand(key, destinationKey)`: a pure alias for move. -/
def renameS3ObjectCommand (env : S3Env) (st : S3State)
    (key destinationKey : String) : OperationResult Bool × S3State :=
  moveS3ObjectCommand env st key destinationKey

/-! ## listAllS3ObjectsInDirectory (s3-queries.ts lines 480–512)

The command normalizes the prefix and then issues a single
`ListObjectsV2Command` carrying no `ContinuationToken`; the backend answers
such a request with the first page of the listing (`response.Contents`).
No loop over `NextContinuationToken` appears in this function (the separate
`listAllObjects` helper paginates but is documented "NOT in Use" and has no
caller). -/
/-- The prefix normalization at the top of `listAllS3ObjectsInDirectory`:
`/` becomes the empty root prefix, a leading slash is dropped, and a
non-empty prefix is forced to end with `/`. -/
def normalizeListPrefix (rootKey : String) : String :=
  let pfx0 : String :=
    if rootKey = "/" then ""
    else if jsStartsWith rootKey "/" then jsSubstringFrom rootKey 1
    else rootKey
  if pfx0 ≠ "" && !(jsEndsWith pfx0 "/") then pfx0 ++ "/" else pfx0

def listAllS3ObjectsInDirectory (env : S3Env) (st : S3State)
    (rootKey : String) : OperationResult (List AwsObject) × S3State :=
  let pfx : String := normalizeListPrefix rootKey
  let st1 : S3State := { st with calls := st.calls ++ [S3Call.list pfx] }
  match env.listFault pfx with
  | some e =>
    (OperationResult.Failure "Error fetching S3 objects" (some e), st1)
  | none =>
    (OperationResult.Success (some ((env.listPages pfx).headD [])) none, st1)

/-- The union of every page of the backend listing for a prefix: what a
lister that follows continuation tokens until none is returned would
retrieve. -/
def allPagesUnion (env : S3Env) (pfx : String) : List AwsObject :=
  (env.listPages pfx).flatten

/-! ## Directory commands (s3-commands.ts) -/

/-- `transformS3DirectoryKeys(currentObjectKey, destinationKey)`: replaces
the first occurrence of the first path segment (plus `/`) with the
normalized destination key (the source local is named `sourcePrefix`). -/
def transformS3DirectoryKeys (currentObjectKey destinationKey : String) :
    String :=
  let normalizedDestKey :=
    if jsEndsWith destinationKey "/" then destinationKey
    else destinationKey ++ "/"
  let srcSeg := ((jsSplit currentObjectKey '/').headD "") ++ "/"
  jsReplaceFirst currentObjectKey srcSeg normalizedDestKey

/-- The probe loop of `checkIfDestinationDirectoryExist`: sequentially
probes each transformed destination key; a probe that succeeds with `true`
returns `Success(true)`; a probe failure is not propagated — the loop just
moves on, and an exhausted loop returns `Success(false)` (the empty-array
early return coincides with the exhausted case). -/
def checkIfDestinationDirectoryExist (env : S3Env) (st : S3State)
    (objects : List AwsObject) (destinationKey : String) :
    OperationResult Bool × S3State :=
  match objects with
  | [] => (OperationResult.Success (some false) none, st)
  | o :: rest =>
    let objectKey := o.Key.getD ""
    let destinationObjectKey :=
      transformS3DirectoryKeys objectKey destinationKey
    let p := checkIfObjectKeyExists env st destinationObjectKey
    let existResult := p.1
    let st1 := p.2
    if existResult.success && existResult.dataTruthy then
      (OperationResult.Success (some true) none, st1)
    else
      checkIfDestinationDirectoryExist env st1 rest destinationKey

/-- The child loop of `copyS3DirectoryCommand`.  The source guards each
child with `if (!response) throw ...`, but `response` is the
`OperationResult` object returned by `copyS3ObjectCommand`, which is never
null or undefined, so the guard never fires: the loop continues past a
failed child copy and its result value is discarded. -/
def copyDirLoop (env : S3Env) (destinationKey : String) :
    S3State → List AwsObject → S3State
  | st, [] => st
  | st, o :: rest =>
    let objectKey := o.Key.getD ""
    let destinationObjectKey :=
      transformS3DirectoryKeys objectKey destinationKey
    let c := copyS3ObjectCommand env st objectKey destinationObjectKey
    copyDirLoop env destinationKey c.2 rest

/-- `copyS3DirectoryCommand(sourceKey, destinationKey)`: list the source
prefix, pre-check the destination, then copy each child sequentially; the
trailing `return OperationResult.Success(true)` is reached regardless of
child outcomes (see `copyDirLoop`). -/
def copyS3DirectoryCommand (env : S3Env) (st : S3State)
    (sourceKey destinationKey : String) : OperationResult Bool × S3State :=
  let l := listAllS3ObjectsInDirectory env st sourceKey
  let listResult := l.1
  let st1 := l.2
  if !listResult.success || listResult.data.isNone then
    (OperationResult.ConvertFailure listResult, st1)
  else
    let objs := listResult.data.getD []
    let e := checkIfDestinationDirectoryExist env st1 objs destinationKey
    let existResult := e.1
    let st2 := e.2
    if existResult.dataTruthy then
      (S3Responses.DestinationKeyExist, st2)
    else
      (OperationResult.Success (some true) none,
       copyDirLoop env destinationKey st2 objs)

/-- The child loop of `deleteS3DirectoryCommand`; like `copyDirLoop`, the
`if (!response) throw ...` guard never fires because `response` is always
an object, so each child delete's result is discarded. -/
def deleteDirLoop (env : S3Env) : S3State → List AwsObject → S3State
  | st, [] => st
  | st, o :: rest =>
    let objectKey := o.Key.getD ""
    let d := deleteS3ObjectCommand env st objectKey
    deleteDirLoop env d.2 rest

/-- `deleteS3DirectoryCommand(key)`: list the prefix then delete each child
sequentially; the trailing success is reached regardless of child
outcomes. -/
def deleteS3DirectoryCommand (env : S3Env) (st : S3State) (key : String) :
    OperationResult Bool × S3State :=
  let l := listAllS3ObjectsInDirectory env st key
  let listResult := l.1
  let st1 := l.2
  if !listResult.success || listResult.data.isNone then
    (OperationResult.ConvertFailure listResult, st1)
  else
    let objs := listResult.data.getD []
    (OperationResult.Success (some true) none, deleteDirLoop env st1 objs)

/-- `moveS3DirectoryCommand(sourceKey, destinationKey)`: directory copy then
directory delete, each failure returned as-is. -/
def moveS3DirectoryCommand (env : S3Env) (st : S3State)
    (sourceKey destinationKey : String) : OperationResult Bool × S3State :=
  let c := copyS3DirectoryCommand env st sourceKey destinationKey
  let copyResponse := c.1
  let st1 := c.2
  if !copyResponse.success then
    (copyResponse, st1)
  else
    let d := deleteS3DirectoryCommand env st1 sourceKey
    let deleteResponse := d.1
    let st2 := d.2
    if !deleteResponse.success then
      (deleteResponse, st2)
    else
      (OperationResult.Success (some true) none, st2)

/-! ## getSignedUrlCommand and its cache (s3-queries.ts lines 532–562)

`signedUrlCache` maps a key to `{ url, expiresAt }` with `expiresAt` a
millisecond timestamp.  The environment supplies the signer: `signUrl key n`
is the URL returned by the n-th signing request of the run (so distinct
requests can be told apart), and `signFault` injects a thrown
`getSignedUrl`.  `s3SignedUrlExpires` is the configured default expiry in
seconds. -/

/-- A cache entry: the URL and its absolute expiry timestamp in ms. -/
structure SignedUrlEntry where
  url : String
  expiresAt : Nat
deriving DecidableEq, Repr

structure UrlEnv where
  signFault : String → Option String
  signUrl : String → Nat → String
  s3SignedUrlExpires : Nat

/-- The module-level cache plus the number of signing requests issued. -/
structure UrlState where
  cache : List (String × SignedUrlEntry)
  signCalls : Nat
deriving DecidableEq, Repr

/-- The miss path of `getSignedUrlCommand`: issue a signing request and, on
success, store the URL with absolute expiry `now + expiresIn * 1000`
(seconds converted to ms).  `Map.set` on the JS map is modelled by
prepending to the association list, which `List.lookup` resolves to the
newest binding. -/
def getSignedUrlFresh (env : UrlEnv) (st : UrlState) (key : String)
    (expiresIn now : Nat) : OperationResult String × UrlState :=
  let st1 : UrlState := { st with signCalls := st.signCalls + 1 }
  match env.signFault key with
  | some e =>
    (OperationResult.Failure "Error generating signed URL" (some e), st1)
  | none =>
    let url := env.signUrl key st.signCalls
    (OperationResult.Success (some url) none,
     { st1 with
        cache := (key, SignedUrlEntry.mk url (now + expiresIn * 1000)) ::
          st1.cache })

/-- `getSignedUrlCommand(key, expiresInSecond?)` at time `now` (ms, the
value of `Date.now()`).  The cached URL is returned when
`cached.expiresAt > now + expiresIn` — the source adds `expiresIn` (a
number of seconds) to `now` (a number of milliseconds) without unit
conversion, exactly as written. -/
def getSignedUrlCommand (env : UrlEnv) (st : UrlState) (key : String)
    (expiresInSecond : Option Nat) (now : Nat) :
    OperationResult String × UrlState :=
  let expiresIn := expiresInSecond.getD env.s3SignedUrlExpires
  match st.cache.lookup key with
  | some cached =>
    if cached.expiresAt > now + expiresIn then
      (OperationResult.Success (some cached.url) none, st)
    else
      getSignedUrlFresh env st key expiresIn now
  | none => getSignedUrlFresh env st key expiresIn now

/-! ## Listing conversion and classification (s3-helpers.ts lines 23–69) -/

/-- The UI `S3ObjectType` enum. -/
inductive S3ObjectType where
  | FILE
  | DIRECTORY
deriving DecidableEq, Repr

/-- The UI `S3Object` record. -/
structure S3Object where
  type : S3ObjectType
  key : String
  name : String
  object : Option AwsObject
deriving DecidableEq, Repr

/-- `ListObjectsV2CommandOutput`: the fields the converter reads.  The AWS
field `Prefix` is embedded as `pfxField`; `CommonPrefixes` entries carry an
optional `Prefix` string each. -/
structure ListOutput where
  pfxField : Option String
  commonPrefixList : Option (List (Option String))
  contents : Option (List AwsObject)
deriving DecidableEq, Repr

/-- `handlePrefixNameSplit(prefix)`: the second-to-last `/`-separated part
when there are at least two parts, else the first. -/
def handlePrefixNameSplit (p : String) : String :=
  let parts := jsSplit p '/'
  if parts.length ≥ 2 then
    (parts.getD (parts.length - 2) "")
  else
    parts.headD ""

/-- JS `object.Key?.split('/').pop() || ''` — the display name of a
contents entry. -/
def jsLastSegName (key : Option String) : String :=
  match key with
  | none => ""
  | some k => ((jsSplit k '/').getLast?).getD ""

/-- Conversion of one `Contents` entry: skip the entry whose key equals the
queried prefix; classify as DIRECTORY when `Key.split('.')[0] === Key`
(which in JS also holds when `Key` is undefined, both sides being
undefined) or when the key ends with `/`; otherwise FILE. -/
def convertContentsEntry (responsePfx : Option String) (o : AwsObject) :
    Option S3Object :=
  if o.Key = responsePfx then
    none
  else if
      (match o.Key with
       | some k => ((jsSplit k '.').headD "" = k : Bool)
       | none => true)
      || (match o.Key with
          | some k => jsEndsWith k "/"
          | none => false) then
    some ⟨S3ObjectType.DIRECTORY, o.Key.getD "", jsLastSegName o.Key, none⟩
  else
    some ⟨S3ObjectType.FILE, o.Key.getD "", jsLastSegName o.Key, some o⟩

/-- `ListObjectsV2CommandOutputToS3Object(response)`: common prefixes become
DIRECTORY entries, then contents entries are converted in order. -/
def ListObjectsV2CommandOutputToS3Object (response : ListOutput) :
    List S3Object :=
  let fromPrefixes : List S3Object :=
    match response.commonPrefixList with
    | none => []
    | some ps =>
      ps.map (fun p =>
        ⟨S3ObjectType.DIRECTORY, p.getD "", handlePrefixNameSplit (p.getD ""),
         none⟩)
  let fromContents : List S3Object :=
    match response.contents with
    | none => []
    | some objs => objs.filterMap (convertContentsEntry response.pfxField)
  fromPrefixes ++ fromContents

/-! ## The orchestrator (use-s3-object-operations.ts) -/

/-- The `FileOperationType` enum. -/
inductive FileOperationType where
  | RENAME
  | DELETE
  | COPY
  | MOVE
  | CREATE
deriving DecidableEq, Repr

/-- `validateAndDispatchS3Action`'s file-vs-directory classification of the
source key: DIRECTORY exactly when the key ends with `/`. -/
def classifySourceKey (sourceKey : String) : S3ObjectType :=
  if jsEndsWith sourceKey "/" then S3ObjectType.DIRECTORY
  else S3ObjectType.FILE

/-- The server actions the dispatch switch can invoke (s3-actions.ts
wrappers around the commands), supplied by the environment. -/
structure ActionsEnv where
  createS3FolderAction : String → OperationResult Bool
  moveS3ObjectAction : String → String → OperationResult Bool
  moveS3DirectoryAction : String → String → OperationResult Bool
  copyS3ObjectAction : String → String → OperationResult Bool
  copyS3DirectoryAction : String → String → OperationResult Bool
  renameS3ObjectAction : String → String → OperationResult Bool
  renameS3DirectoryAction : String → String → OperationResult Bool
  deleteS3ObjectAction : String → OperationResult Bool
  deleteS3DirectoryAction : String → OperationResult Bool

/-- The `switch (true)` dispatch table of `dispatchS3Action`:
`none` is the default case ("Invalid operation or file type"), reached for
the CREATE × FILE combination. -/
def selectS3Action (acts : ActionsEnv) (operationType : FileOperationType)
    (objectType : S3ObjectType) (sourceKey destination : String) :
    Option (OperationResult Bool) :=
  match operationType, objectType with
  | FileOperationType.CREATE, S3ObjectType.DIRECTORY =>
    some (acts.createS3FolderAction destination)
  | FileOperationType.MOVE, S3ObjectType.FILE =>
    some (acts.moveS3ObjectAction sourceKey destination)
  | FileOperationType.MOVE, S3ObjectType.DIRECTORY =>
    some (acts.moveS3DirectoryAction sourceKey destination)
  | FileOperationType.COPY, S3ObjectType.FILE =>
    some (acts.copyS3ObjectAction sourceKey destination)
  | FileOperationType.COPY, S3ObjectType.DIRECTORY =>
    some (acts.copyS3DirectoryAction sourceKey destination)
  | FileOperationType.RENAME, S3ObjectType.FILE =>
    some (acts.renameS3ObjectAction sourceKey destination)
  | FileOperationType.RENAME, S3ObjectType.DIRECTORY =>
    some (acts.renameS3DirectoryAction sourceKey destination)
  | FileOperationType.DELETE, S3ObjectType.FILE =>
    some (acts.deleteS3ObjectAction sourceKey)
  | FileOperationType.DELETE, S3ObjectType.DIRECTORY =>
    some (acts.deleteS3DirectoryAction sourceKey)
  | FileOperationType.CREATE, S3ObjectType.FILE => none

/-- The store slice relevant to the orchestrator: the listing, the pending
operation context, and the current navigation path. -/
structure OrchState where
  s3Objects : List S3Object
  sourceKey : Option String
  destinationKey : Option String
  newName : Option String
  operationType : Option FileOperationType
  operationMessage : Option String
  path : String
deriving DecidableEq, Repr

/-- `resetFileOperation` of the store slice: clears sourceKey,
destinationKey, newName, operationType and operationMessage. -/
def resetFileOperation (st : OrchState) : OrchState :=
  { st with
      sourceKey := none
      destinationKey := none
      newName := none
      operationType := none
      operationMessage := none }

/-- The listing fetch the navigation hook delegates to
(`getObjectsAction`), supplied by the environment. -/
structure NavEnv where
  getObjectsAction : String → OperationResult (List S3Object)

/-- `getS3Objects(key)` of use-s3-navigation.ts: fetch; on missing success
or data, bubble a converted failure leaving the store untouched; otherwise
store the objects and the path. -/
def getS3Objects (nav : NavEnv) (st : OrchState) (key : String) :
    OperationResult Bool × OrchState :=
  let response := nav.getObjectsAction key
  if !response.success || response.data.isNone then
    (OperationResult.ConvertFailure response, st)
  else
    (OperationResult.Success (some true) none,
     { st with s3Objects := response.data.getD [], path := key })

/-- `dispatchS3Action(operationType, objectType, sourceKey, destination)`:
run the selected action; when its result is a success, re-list the current
navigation path (`getS3Objects(getPath())`) and `resetFileOperation()`;
when it is a failure (or the switch hits the default case) the store is
left untouched and the result returned as-is. -/
def dispatchS3Action (acts : ActionsEnv) (nav : NavEnv) (st : OrchState)
    (operationType : FileOperationType) (objectType : S3ObjectType)
    (sourceKey destination : String) : OperationResult Bool × OrchState :=
  match selectS3Action acts operationType objectType sourceKey destination with
  | none => (OperationResult.Failure "Invalid operation or file type" none, st)
  | some response =>
    if response.success then
      let g := getS3Objects nav st st.path
      (response, resetFileOperation g.2)
    else
      (response, st)

/-! ## The upload pipeline (upload hook) -/

/-- Per-file upload status values. -/
inductive UploadStatus where
  | pending
  | uploading
  | completed
  | error
  | cancelled
deriving DecidableEq, Repr

/-- A `FileUploadStatus` record (the `file` blob itself is irrelevant to
the control flow and omitted). -/
structure FileUploadStatus where
  progress : Nat
  status : UploadStatus
  error : Option String
deriving DecidableEq, Repr

/-- How the `axios.put` transfer of `performUpload` ends: resolved, aborted
through the AbortController's signal, or rejected with a network/HTTP
error. -/
inductive TransferOutcome where
  | ok
  | aborted
  | netError (msg : String)
deriving DecidableEq, Repr

/-- `axios.isCancel(error)`: true exactly for an abort. -/
def axiosIsCancel : TransferOutcome → Bool
  | TransferOutcome.aborted => true
  | _ => false

/-- `handleError(error, defaultMessage)`: maps an abort to the distinct
string "Upload cancelled", an axios error to its message, anything else to
the default. -/
def handleError (o : TransferOutcome) (defaultMessage : String) : String :=
  if axiosIsCancel o then "Upload cancelled"
  else
    match o with
    | TransferOutcome.netError m => m
    | _ => defaultMessage

/-- `performUpload(file, signedUrl, controller)`: returns `true` when the
transfer resolves; in the catch block it calls `handleError(error)` but
discards the returned string and falls through, so the function resolves
with `undefined` (modelled as `none`) for aborts and network errors
alike. -/
def performUpload (o : TransferOutcome) : Option Bool :=
  match o with
  | TransferOutcome.ok => some true
  | e =>
    let _ := handleError e "Unknown error"
    none

/-- The `UploadDetails` produced by `prepareUpload`: destination location
and the presigned URL (the AbortController is always freshly allocated). -/
structure UploadDetails where
  location : String
  signedUrl : String
deriving DecidableEq, Repr

/-- `uploadSingleFile(file, overwrite)` given the result of `prepareUpload`
and the transfer's outcome: failures of preparation are converted; a
transfer that does not resolve `true` yields the generic
`Failure('Upload failed')`. -/
def uploadSingleFile (prepareResult : OperationResult UploadDetails)
    (o : TransferOutcome) : OperationResult Bool :=
  if !prepareResult.success then
    OperationResult.ConvertFailure prepareResult
  else if prepareResult.data.isNone ||
      ((prepareResult.data.getD (UploadDetails.mk "" "")).signedUrl = "") then
    OperationResult.ConvertFailure prepareResult
  else
    match performUpload o with
    | some true => OperationResult.Success (some true) none
    | _ => OperationResult.Failure "Upload failed" none

/-- The per-file status update `uploadMultipleFiles` applies after
`uploadSingleFile` returns: a failure result marks the file `error` with
the result's message; a success marks it `completed` at 100%. -/
def batchStatusUpdate (result : OperationResult Bool)
    (st : FileUploadStatus) : FileUploadStatus :=
  if !result.success then
    { st with status := UploadStatus.error, error := result.message }
  else
    { st with progress := 100, status := UploadStatus.completed }

/-! ## Theorems

One theorem per claim (C1..C10), with witnesses for those whose statement
has hypotheses, counterexamples for the corrected claims, and concrete
environments used to instantiate them. -/

/-- A bucket holding `docs/a.txt` and `docs/b.txt` whose backend fails the
copy and the delete of `docs/a.txt` while every other call succeeds. -/
def c1Env : S3Env :=
  { headFault := fun _ => none
    copyFault := fun src _ =>
      if src = "docs/a.txt" then some "backend copy error" else none
    deleteFault := fun k =>
      if k = "docs/a.txt" then some "backend delete error" else none
    listFault := fun _ => none
    listPages := fun pfx =>
      if pfx = "docs/" then
        [[AwsObject.mk (some "docs/a.txt"), AwsObject.mk (some "docs/b.txt")]]
      else [] }

/-- The starting bucket state for the `c1Env` scenario. -/
def c1St : S3State := S3State.mk ["docs/a.txt", "docs/b.txt"] []

/-- C1: the claim says the first failed child copy/delete of a directory
operation aborts the remaining children and surfaces as the overall failure
Result.  In the code the loop guard is `if (!response)`, and `response` is
the child's `OperationResult` object — never falsy — so the guard cannot
fire: with the child copy (and delete) of `docs/a.txt` failing, the copy
(and delete) of `docs/b.txt` is still attempted and the directory command
returns `Success(true)`. -/
theorem c1_directory_ops_ignore_child_failures :
    ((copyS3ObjectCommand c1Env c1St "docs/a.txt" "dest/a.txt").1.success =
        false) ∧
    (copyS3DirectoryCommand c1Env c1St "docs/" "dest").1 =
        OperationResult.Success (some true) none ∧
    S3Call.copy "docs/b.txt" "dest/b.txt" ∈
        (copyS3DirectoryCommand c1Env c1St "docs/" "dest").2.calls ∧
    ((deleteS3ObjectCommand c1Env c1St "docs/a.txt").1.success = false) ∧
    (deleteS3DirectoryCommand c1Env c1St "docs/").1 =
        OperationResult.Success (some true) none ∧
    S3Call.delete "docs/b.txt" ∈
        (deleteS3DirectoryCommand c1Env c1St "docs/").2.calls := by
  decide

/-- A backend whose listing of `big/` spans two pages. -/
def c2Env : S3Env :=
  { headFault := fun _ => none
    copyFault := fun _ _ => none
    deleteFault := fun _ => none
    listFault := fun _ => none
    listPages := fun pfx =>
      if pfx = "big/" then
        [[AwsObject.mk (some "big/a")], [AwsObject.mk (some "big/b")]]
      else [] }

/-- C2 counterexample: on a listing of `big/` that spans two pages,
`listAllS3ObjectsInDirectory` returns only the first page, not the union of
all pages as the claim states. -/
theorem c2_counterexample_second_page_dropped :
    1 < (c2Env.listPages "big/").length ∧
    (listAllS3ObjectsInDirectory c2Env (S3State.mk [] []) "big/").1.data =
        some [AwsObject.mk (some "big/a")] ∧
    allPagesUnion c2Env "big/" =
        [AwsObject.mk (some "big/a"), AwsObject.mk (some "big/b")] ∧
    (listAllS3ObjectsInDirectory c2Env (S3State.mk [] []) "big/").1.data ≠
        some (allPagesUnion c2Env "big/") := by
  decide

/-- C2 (amended): the lister the bulk operations use issues a single
ListObjectsV2 request with the normalized prefix and no continuation token,
so it returns exactly the first page of the backend listing (empty when
there is none), and a thrown list call becomes the generic fetch
failure. -/
theorem c2_lister_returns_first_page_only
    (env : S3Env) (st : S3State) (rootKey : String) :
    (env.listFault (normalizeListPrefix rootKey) = none →
      (listAllS3ObjectsInDirectory env st rootKey).1 =
        OperationResult.Success
          (some ((env.listPages (normalizeListPrefix rootKey)).headD []))
          none) ∧
    (∀ e : String, env.listFault (normalizeListPrefix rootKey) = some e →
      (listAllS3ObjectsInDirectory env st rootKey).1 =
        OperationResult.Failure "Error fetching S3 objects" (some e)) := by
  constructor
  · intro h
    simp [listAllS3ObjectsInDirectory, h]
  · intro e he
    simp [listAllS3ObjectsInDirectory, he]

/-- A backend whose every list call throws. -/
def c2FaultEnv : S3Env :=
  { headFault := fun _ => none
    copyFault := fun _ _ => none
    deleteFault := fun _ => none
    listFault := fun _ => some "list transport error"
    listPages := fun _ => [] }

/-- C2 witness: the first-page equation at the two-page backend and the
failure equation at a backend whose list call throws. -/
theorem c2_witness_concrete :
    (listAllS3ObjectsInDirectory c2Env (S3State.mk [] []) "big/").1 =
        OperationResult.Success
          (some ((c2Env.listPages (normalizeListPrefix "big/")).headD []))
          none ∧
    (listAllS3ObjectsInDirectory c2FaultEnv (S3State.mk [] []) "big/").1 =
        OperationResult.Failure "Error fetching S3 objects"
          (some "list transport error") := by
  have h1 := c2_lister_returns_first_page_only c2Env (S3State.mk [] []) "big/"
  have h2 := c2_lister_returns_first_page_only c2FaultEnv (S3State.mk [] [])
    "big/"
  exact ⟨h1.1 (by decide), h2.2 "list transport error" rfl⟩

/-- C3: when the destination existence probe succeeds with `true`,
`copyS3ObjectCommand` returns the `DestinationKeyExist` sentinel, issues no
CopyObject call (the only backend call recorded is the HeadObject probe),
leaves the bucket unchanged, and the sentinel differs from every generic
copy failure. -/
theorem c3_copyObject_destinationExists_shortCircuits
    (env : S3Env) (st : S3State) (sourceKey destinationKey : String)
    (hfault : env.headFault destinationKey = none)
    (hexists : destinationKey ∈ st.objects) :
    (copyS3ObjectCommand env st sourceKey destinationKey).1 =
        S3Responses.DestinationKeyExist ∧
    (copyS3ObjectCommand env st sourceKey destinationKey).2.objects =
        st.objects ∧
    (copyS3ObjectCommand env st sourceKey destinationKey).2.calls =
        st.calls ++ [S3Call.head destinationKey] ∧
    (∀ e : Option String,
        S3Responses.DestinationKeyExist ≠
          OperationResult.Failure "Error copying S3 object" e) := by
  refine ⟨?_, ?_, ?_, ?_⟩ <;>
    simp [copyS3ObjectCommand, checkIfObjectKeyExists, hfault, hexists,
      OperationResult.dataTruthy, OperationResult.Success,
      S3Responses.DestinationKeyExist, OperationResult.Failure]

/-- A backend failing only the HeadObject of `bad.key`, over a bucket
holding `pics/cat.png`. -/
def wEnv : S3Env :=
  { headFault := fun k => if k = "bad.key" then some "transport error" else none
    copyFault := fun _ _ => none
    deleteFault := fun _ => none
    listFault := fun _ => none
    listPages := fun _ => [] }

/-- The bucket state for the `wEnv` scenarios. -/
def wSt : S3State := S3State.mk ["pics/cat.png"] []

/-- C3 witness: copying onto the existing `pics/cat.png` returns the
sentinel with only the probe call issued. -/
theorem c3_witness_concrete :
    (copyS3ObjectCommand wEnv wSt "pics/dog.png" "pics/cat.png").1 =
        S3Responses.DestinationKeyExist ∧
    (copyS3ObjectCommand wEnv wSt "pics/dog.png" "pics/cat.png").2.objects =
        wSt.objects ∧
    (copyS3ObjectCommand wEnv wSt "pics/dog.png" "pics/cat.png").2.calls =
        wSt.calls ++ [S3Call.head "pics/cat.png"] ∧
    S3Responses.DestinationKeyExist ≠
        OperationResult.Failure "Error copying S3 object" none := by
  have h := c3_copyObject_destinationExists_shortCircuits wEnv wSt
    "pics/dog.png" "pics/cat.png" (by decide) (by decide)
  exact ⟨h.1, h.2.1, h.2.2.1, h.2.2.2 none⟩

/-- C4: `checkIfObjectKeyExists` maps the backend's not-found condition to
`Success(false)` (a never-created key yields `Success(false)`), returns a
success Result whenever the HeadObject call does not throw, and returns a
failure Result exactly for thrown transport/auth/other errors. -/
theorem c4_existsByKey_notFound_is_success_false
    (env : S3Env) (st : S3State) (key : String) :
    (env.headFault key = none → key ∉ st.objects →
        (checkIfObjectKeyExists env st key).1 =
          OperationResult.Success (some false) none) ∧
    (env.headFault key = none →
        (checkIfObjectKeyExists env st key).1.success = true) ∧
    (∀ e : String, env.headFault key = some e →
        (checkIfObjectKeyExists env st key).1 =
          OperationResult.Failure "Error checking if S3 object exists"
            (some e)) := by
  refine ⟨?_, ?_, ?_⟩
  · intro h1 h2
    simp [checkIfObjectKeyExists, h1, h2, OperationResult.Success]
  · intro h1
    by_cases hc : key ∈ st.objects <;>
      simp [checkIfObjectKeyExists, h1, hc, OperationResult.Success]
  · intro e he
    simp [checkIfObjectKeyExists, he, OperationResult.Failure]

/-- C4 witness: a never-created key yields `Success(false)`, a present key a
success, and a throwing HeadObject the failure Result. -/
theorem c4_witness_concrete :
    (checkIfObjectKeyExists wEnv wSt "never/created.txt").1 =
        OperationResult.Success (some false) none ∧
    (checkIfObjectKeyExists wEnv wSt "pics/cat.png").1.success = true ∧
    (checkIfObjectKeyExists wEnv wSt "bad.key").1 =
        OperationResult.Failure "Error checking if S3 object exists"
          (some "transport error") := by
  refine ⟨?_, ?_, ?_⟩
  · exact (c4_existsByKey_notFound_is_success_false wEnv wSt
      "never/created.txt").1 (by decide) (by decide)
  · exact (c4_existsByKey_notFound_is_success_false wEnv wSt
      "pics/cat.png").2.1 (by decide)
  · exact (c4_existsByKey_notFound_is_success_false wEnv wSt
      "bad.key").2.2 "transport error" (by decide)

/-- A signer with no faults, a distinct URL per signing request, and the
default expiry of 900 seconds. -/
def c5Env : UrlEnv :=
  { signFault := fun _ => none
    signUrl := fun _ n => "signed-url-" ++ toString n
    s3SignedUrlExpires := 900 }

/-- C5 counterexample: after caching `k.txt` at time 0 with a 900-second
expiry (absolute expiry 900000 ms), a second call at 600000 ms has
remaining lifetime 300000 ms, which does not exceed the requested expiry of
900 s = 900000 ms, so per the claim a fresh URL must be requested; the code
compares `900000 > 600000 + 900` (seconds added to milliseconds), returns
the cached URL and issues no second signing request. -/
theorem c5_counterexample_unit_mismatch :
    ((getSignedUrlCommand c5Env (UrlState.mk [] 0) "k.txt" (some 900) 0).2.cache
      = [("k.txt", SignedUrlEntry.mk "signed-url-0" 900000)]) ∧
    ((getSignedUrlCommand c5Env
        ((getSignedUrlCommand c5Env (UrlState.mk [] 0) "k.txt" (some 900) 0).2)
        "k.txt" (some 900) 600000).1 =
      OperationResult.Success (some "signed-url-0") none) ∧
    ((getSignedUrlCommand c5Env
        ((getSignedUrlCommand c5Env (UrlState.mk [] 0) "k.txt" (some 900) 0).2)
        "k.txt" (some 900) 600000).2.signCalls = 1) ∧
    ¬ (900000 - 600000 > 900 * 1000) := by
  decide

/-- C5 (amended): the cached URL is returned, with no new signing request,
exactly when the entry's absolute expiry timestamp (ms) exceeds the current
time (ms) plus the requested expiry taken as a raw number of seconds — no
unit conversion; otherwise, and on a cache miss, a fresh URL is requested
and stored with absolute expiry `now + expiresIn * 1000`. -/
theorem c5_cache_hit_condition_raw_seconds
    (env : UrlEnv) (st : UrlState) (key : String)
    (expiresInSecond : Option Nat) (now : Nat) :
    (∀ entry : SignedUrlEntry, st.cache.lookup key = some entry →
      ((entry.expiresAt > now + expiresInSecond.getD env.s3SignedUrlExpires →
          getSignedUrlCommand env st key expiresInSecond now =
            (OperationResult.Success (some entry.url) none, st)) ∧
       (¬ entry.expiresAt > now + expiresInSecond.getD env.s3SignedUrlExpires →
          getSignedUrlCommand env st key expiresInSecond now =
            getSignedUrlFresh env st key
              (expiresInSecond.getD env.s3SignedUrlExpires) now))) ∧
    (st.cache.lookup key = none →
      getSignedUrlCommand env st key expiresInSecond now =
        getSignedUrlFresh env st key
          (expiresInSecond.getD env.s3SignedUrlExpires) now) ∧
    (env.signFault key = none →
      getSignedUrlFresh env st key
          (expiresInSecond.getD env.s3SignedUrlExpires) now =
        (OperationResult.Success (some (env.signUrl key st.signCalls)) none,
         UrlState.mk
           ((key, SignedUrlEntry.mk (env.signUrl key st.signCalls)
              (now + expiresInSecond.getD env.s3SignedUrlExpires * 1000)) ::
             st.cache)
           (st.signCalls + 1))) := by
  refine ⟨?_, ?_, ?_⟩
  · intro entry hentry
    constructor
    · intro hgt
      simp [getSignedUrlCommand, hentry, hgt]
    · intro hle
      simp [getSignedUrlCommand, hentry, hle]
  · intro hnone
    simp [getSignedUrlCommand, hnone]
  · intro hsf
    simp [getSignedUrlFresh, hsf]

/-- A cache already holding `k.txt` with absolute expiry 900000 ms after
one signing request. -/
def c5WSt : UrlState :=
  UrlState.mk [("k.txt", SignedUrlEntry.mk "signed-url-0" 900000)] 1

/-- C5 witness: a hit at 600000 ms returns the cached URL unchanged; at
899200 ms the raw-seconds condition fails and a fresh URL is requested and
cached with expiry `899200 + 900 * 1000`. -/
theorem c5_witness_concrete :
    getSignedUrlCommand c5Env c5WSt "k.txt" (some 900) 600000 =
      (OperationResult.Success (some "signed-url-0") none, c5WSt) ∧
    getSignedUrlCommand c5Env c5WSt "k.txt" (some 900) 899200 =
      getSignedUrlFresh c5Env c5WSt "k.txt" 900 899200 ∧
    getSignedUrlFresh c5Env c5WSt "k.txt" 900 899200 =
      (OperationResult.Success (some (c5Env.signUrl "k.txt" 1)) none,
       UrlState.mk
         (("k.txt", SignedUrlEntry.mk (c5Env.signUrl "k.txt" 1)
            (899200 + 900 * 1000)) :: c5WSt.cache) 2) := by
  have h1 := c5_cache_hit_condition_raw_seconds c5Env c5WSt "k.txt"
    (some 900) 600000
  have h2 := c5_cache_hit_condition_raw_seconds c5Env c5WSt "k.txt"
    (some 900) 899200
  exact ⟨(h1.1 (SignedUrlEntry.mk "signed-url-0" 900000) (by decide)).1
      (by decide),
    (h2.1 (SignedUrlEntry.mk "signed-url-0" 900000) (by decide)).2
      (by decide),
    h2.2.2 rfl⟩

/-- A successful preparation result for the upload scenario. -/
def c6Prep : OperationResult UploadDetails :=
  OperationResult.Success
    (some (UploadDetails.mk "docs/report.pdf" "https-signed-put-url")) none

/-- C6: the claim says an aborted transfer surfaces as a distinct
"cancelled" condition with per-file terminal state `cancelled`.  In the
code `performUpload` discards the "Upload cancelled" string `handleError`
computes and resolves with `undefined` for aborts and network errors alike,
so `uploadSingleFile` returns the generic `Failure('Upload failed')` — the
very result a network error produces — and the batch status update marks
the aborted file `error`, not `cancelled`. -/
theorem c6_abort_indistinguishable_from_generic_error :
    uploadSingleFile c6Prep TransferOutcome.aborted =
        OperationResult.Failure "Upload failed" none ∧
    uploadSingleFile c6Prep TransferOutcome.aborted =
        uploadSingleFile c6Prep (TransferOutcome.netError "network down") ∧
    performUpload TransferOutcome.aborted =
        performUpload (TransferOutcome.netError "network down") ∧
    (batchStatusUpdate (uploadSingleFile c6Prep TransferOutcome.aborted)
        (FileUploadStatus.mk 55 UploadStatus.uploading none)).status =
      UploadStatus.error ∧
    UploadStatus.error ≠ UploadStatus.cancelled ∧
    handleError TransferOutcome.aborted "Unknown error" =
      "Upload cancelled" := by
  decide

/-- C7: for every dispatched operation, a success Result triggers a
re-listing of the current navigation path and clears the operation context
(sourceKey and operationType become `none`), while a failure Result leaves
the whole store state — context included — unchanged. -/
theorem c7_dispatch_success_resets_failure_preserves
    (acts : ActionsEnv) (nav : NavEnv) (st : OrchState)
    (operationType : FileOperationType) (objectType : S3ObjectType)
    (sourceKey destination : String) (response : OperationResult Bool)
    (hsel : selectS3Action acts operationType objectType sourceKey
        destination = some response) :
    (response.success = true →
      dispatchS3Action acts nav st operationType objectType sourceKey
          destination =
        (response, resetFileOperation (getS3Objects nav st st.path).2) ∧
      (dispatchS3Action acts nav st operationType objectType sourceKey
          destination).2.sourceKey = none ∧
      (dispatchS3Action acts nav st operationType objectType sourceKey
          destination).2.operationType = none ∧
      (∀ objs : List S3Object,
        (nav.getObjectsAction st.path).success = true →
        (nav.getObjectsAction st.path).data = some objs →
        (dispatchS3Action acts nav st operationType objectType sourceKey
            destination).2.s3Objects = objs)) ∧
    (response.success = false →
      dispatchS3Action acts nav st operationType objectType sourceKey
          destination = (response, st)) := by
  constructor
  · intro hs
    refine ⟨?_, ?_, ?_, ?_⟩
    · simp [dispatchS3Action, hsel, hs]
    · simp [dispatchS3Action, hsel, hs, resetFileOperation]
    · simp [dispatchS3Action, hsel, hs, resetFileOperation]
    · intro objs h1 h2
      simp [dispatchS3Action, hsel, hs, resetFileOperation, getS3Objects,
        h1, h2, OperationResult.Success]
  · intro hs
    simp [dispatchS3Action, hsel, hs]

/-- Actions that succeed except the single-object delete, to exercise both
sides of the dispatch. -/
def wActs : ActionsEnv :=
  { createS3FolderAction := fun _ => OperationResult.Success (some true) none
    moveS3ObjectAction := fun _ _ => OperationResult.Success (some true) none
    moveS3DirectoryAction := fun _ _ =>
      OperationResult.Success (some true) none
    copyS3ObjectAction := fun _ _ => OperationResult.Success (some true) none
    copyS3DirectoryAction := fun _ _ =>
      OperationResult.Success (some true) none
    renameS3ObjectAction := fun _ _ =>
      OperationResult.Success (some true) none
    renameS3DirectoryAction := fun _ _ =>
      OperationResult.Success (some true) none
    deleteS3ObjectAction := fun _ => OperationResult.Failure "nope" none
    deleteS3DirectoryAction := fun _ =>
      OperationResult.Success (some true) none }

/-- A listing fetch that succeeds only for the current path `pics/`. -/
def wNav : NavEnv :=
  { getObjectsAction := fun k =>
      if k = "pics/" then
        OperationResult.Success
          (some [S3Object.mk S3ObjectType.FILE "pics/cat.png" "cat.png" none])
          none
      else OperationResult.Failure "no such path" none }

/-- A store with a pending COPY of `pics/cat.png` at path `pics/`. -/
def wOrch : OrchState :=
  OrchState.mk [] (some "pics/cat.png") none none
    (some FileOperationType.COPY) (some "Copying S3 object...") "pics/"

/-- C7 witness: a successful copy clears the context and refreshes the
listing at `pics/`; a failing delete returns the failure with the store
untouched. -/
theorem c7_witness_concrete :
    (dispatchS3Action wActs wNav wOrch FileOperationType.COPY
        S3ObjectType.FILE "pics/cat.png" "pics/dog.png").2.sourceKey = none ∧
    (dispatchS3Action wActs wNav wOrch FileOperationType.COPY
        S3ObjectType.FILE "pics/cat.png" "pics/dog.png").2.operationType =
      none ∧
    (dispatchS3Action wActs wNav wOrch FileOperationType.COPY
        S3ObjectType.FILE "pics/cat.png" "pics/dog.png").2.s3Objects =
      [S3Object.mk S3ObjectType.FILE "pics/cat.png" "cat.png" none] ∧
    dispatchS3Action wActs wNav wOrch FileOperationType.DELETE
        S3ObjectType.FILE "pics/cat.png" "" =
      (OperationResult.Failure "nope" none, wOrch) := by
  have h1 := c7_dispatch_success_resets_failure_preserves wActs wNav wOrch
    FileOperationType.COPY S3ObjectType.FILE "pics/cat.png" "pics/dog.png"
    (OperationResult.Success (some true) none) rfl
  have h2 := c7_dispatch_success_resets_failure_preserves wActs wNav wOrch
    FileOperationType.DELETE S3ObjectType.FILE "pics/cat.png" ""
    (OperationResult.Failure "nope" none) rfl
  exact ⟨(h1.1 rfl).2.1, (h1.1 rfl).2.2.1,
    (h1.1 rfl).2.2.2 [S3Object.mk S3ObjectType.FILE "pics/cat.png" "cat.png"
      none] (by decide) (by decide),
    h2.2 rfl⟩

/-- Helper for C8: when every per-key probe of the destination pre-check
throws, the loop swallows each failure and returns `Success(false)`. -/
theorem checkDirLoop_all_probes_fault (env : S3Env) (destinationKey : String) :
    ∀ (objects : List AwsObject) (st : S3State),
      (∀ o ∈ objects,
        env.headFault
          (transformS3DirectoryKeys (o.Key.getD "") destinationKey) ≠ none) →
      (checkIfDestinationDirectoryExist env st objects destinationKey).1 =
        OperationResult.Success (some false) none := by
  intro objects
  induction objects with
  | nil => intro st h; rfl
  | cons o rest ih =>
    intro st h
    cases hf : env.headFault
        (transformS3DirectoryKeys (o.Key.getD "") destinationKey) with
    | none => exact absurd hf (h o (List.mem_cons_self o rest))
    | some e =>
      have hrec := ih
        (S3State.mk st.objects (st.calls ++
          [S3Call.head (transformS3DirectoryKeys (o.Key.getD "")
            destinationKey)]))
        (fun x hx => h x (List.mem_cons_of_mem _ hx))
      simpa [checkIfDestinationDirectoryExist, checkIfObjectKeyExists, hf,
        OperationResult.dataTruthy, OperationResult.Failure] using hrec

/-- C8: a destination existence probe that itself fails is not propagated —
`copyS3ObjectCommand` proceeds to issue the CopyObject call (here onto an
already existing destination key, so an overwrite can happen) and returns
success; likewise the directory-level pre-check treats every failed per-key
probe as "does not exist" and returns `Success(false)`. -/
theorem c8_probe_failure_proceeds_to_copy
    (env : S3Env) (st : S3State) (sourceKey destinationKey : String)
    (e : String)
    (hfault : env.headFault destinationKey = some e)
    (hcopy : env.copyFault sourceKey destinationKey = none)
    (hexists : destinationKey ∈ st.objects) :
    (copyS3ObjectCommand env st sourceKey destinationKey).1 =
        OperationResult.Success (some true) none ∧
    (copyS3ObjectCommand env st sourceKey destinationKey).2.calls =
        st.calls ++ [S3Call.head destinationKey,
                     S3Call.copy sourceKey destinationKey] ∧
    (∀ (objects : List AwsObject),
      (∀ o ∈ objects,
        env.headFault
          (transformS3DirectoryKeys (o.Key.getD "") destinationKey) ≠ none) →
      (checkIfDestinationDirectoryExist env st objects destinationKey).1 =
        OperationResult.Success (some false) none) := by
  refine ⟨?_, ?_, fun objects h => checkDirLoop_all_probes_fault env
    destinationKey objects st h⟩ <;>
    simp [copyS3ObjectCommand, checkIfObjectKeyExists, hfault, hcopy, hexists,
      OperationResult.dataTruthy, OperationResult.Success,
      OperationResult.Failure]

/-- A bucket already holding the destination key whose HeadObject throws. -/
def w8St : S3State := S3State.mk ["bad.key"] []

/-- C8 witness: with the probe of `bad.key` throwing, the copy onto the
existing `bad.key` is sent and succeeds; the directory pre-check over a
child whose transformed key is `bad.key` returns `Success(false)`. -/
theorem c8_witness_concrete :
    (copyS3ObjectCommand wEnv w8St "src.txt" "bad.key").1 =
        OperationResult.Success (some true) none ∧
    (copyS3ObjectCommand wEnv w8St "src.txt" "bad.key").2.calls =
        w8St.calls ++ [S3Call.head "bad.key", S3Call.copy "src.txt" "bad.key"] ∧
    (checkIfDestinationDirectoryExist wEnv w8St
        [AwsObject.mk (some "bad.key")] "bad.key").1 =
      OperationResult.Success (some false) none := by
  have h := c8_probe_failure_proceeds_to_copy wEnv w8St "src.txt" "bad.key"
    "transport error" (by decide) rfl (by decide)
  exact ⟨h.1, h.2.1, h.2.2 [AwsObject.mk (some "bad.key")] (by decide)⟩

/-- C9: moving an existing object onto its own key hits the destination
existence probe, so `moveS3ObjectCommand` (and `renameS3ObjectCommand`, its
alias) returns the `DestinationKeyExists` sentinel, deletes nothing and
issues only the probe call — never a successful no-op. -/
theorem c9_rename_to_current_key_fails_with_sentinel
    (env : S3Env) (st : S3State) (key : String)
    (hfault : env.headFault key = none)
    (hexists : key ∈ st.objects) :
    renameS3ObjectCommand env st key key = moveS3ObjectCommand env st key key ∧
    (moveS3ObjectCommand env st key key).1 = S3Responses.DestinationKeyExist ∧
    (moveS3ObjectCommand env st key key).2.objects = st.objects ∧
    (moveS3ObjectCommand env st key key).2.calls =
        st.calls ++ [S3Call.head key] := by
  have hcopy : copyS3ObjectCommand env st key key =
      (S3Responses.DestinationKeyExist,
       { st with calls := st.calls ++ [S3Call.head key] }) := by
    simp [copyS3ObjectCommand, checkIfObjectKeyExists, hfault, hexists,
      OperationResult.dataTruthy, OperationResult.Success,
      S3Responses.DestinationKeyExist, OperationResult.Failure]
  refine ⟨rfl, ?_, ?_, ?_⟩ <;>
    simp [moveS3ObjectCommand, hcopy, S3Responses.DestinationKeyExist,
      OperationResult.Failure]

/-- C9 witness: renaming `pics/cat.png` onto itself yields the sentinel,
leaves the bucket unchanged and issues only the probe call. -/
theorem c9_witness_concrete :
    renameS3ObjectCommand wEnv wSt "pics/cat.png" "pics/cat.png" =
        moveS3ObjectCommand wEnv wSt "pics/cat.png" "pics/cat.png" ∧
    (moveS3ObjectCommand wEnv wSt "pics/cat.png" "pics/cat.png").1 =
        S3Responses.DestinationKeyExist ∧
    (moveS3ObjectCommand wEnv wSt "pics/cat.png" "pics/cat.png").2.objects =
        wSt.objects ∧
    (moveS3ObjectCommand wEnv wSt "pics/cat.png" "pics/cat.png").2.calls =
        wSt.calls ++ [S3Call.head "pics/cat.png"] :=
  c9_rename_to_current_key_fails_with_sentinel wEnv wSt "pics/cat.png"
    (by decide) (by decide)

/-- Helper for C10: splitting a list that does not contain the separator
yields the singleton list. -/
theorem splitChar_of_not_contains (c : Char) :
    ∀ l : List Char, l.contains c = false → splitChar c l = [l] := by
  intro l
  induction l with
  | nil => intro _; rfl
  | cons x xs ih =>
    intro h
    have hx : (x = c) = False := by
      simp [List.contains] at h
      exact eq_false (fun hxc => h.1 hxc.symm)
    have hxs : xs.contains c = false := by
      simp [List.contains] at h ⊢
      exact h.2
    simp [splitChar, hx, ih hxs]

/-- Helper for C10: `k.split(c)` is `[k]` when `k` has no `c`. -/
theorem jsSplit_of_not_contains (k : String) (c : Char)
    (h : k.data.contains c = false) : jsSplit k c = [k] := by
  simp [jsSplit, splitChar_of_not_contains c k.data h]

/-- C10: for every key with no `.` and no trailing `/`, the listing
converter classifies its contents entry as DIRECTORY while the orchestrator
classifier (`sourceKey.endsWith('/')`) yields FILE; and with objectType
FILE every dispatched MOVE/COPY/RENAME/DELETE selects the single-object
action. -/
theorem c10_extensionless_key_classifiers_disagree
    (k : String) (p : Option String)
    (hdot : k.data.contains '.' = false)
    (hslash : jsEndsWith k "/" = false)
    (hp : some k ≠ p) :
    (ListObjectsV2CommandOutputToS3Object
        (ListOutput.mk p none (some [AwsObject.mk (some k)]))).map
        (fun o => (o.type, o.key)) = [(S3ObjectType.DIRECTORY, k)] ∧
    classifySourceKey k = S3ObjectType.FILE ∧
    (∀ (acts : ActionsEnv) (sk d : String),
      selectS3Action acts FileOperationType.COPY S3ObjectType.FILE sk d =
          some (acts.copyS3ObjectAction sk d) ∧
      selectS3Action acts FileOperationType.MOVE S3ObjectType.FILE sk d =
          some (acts.moveS3ObjectAction sk d) ∧
      selectS3Action acts FileOperationType.RENAME S3ObjectType.FILE sk d =
          some (acts.renameS3ObjectAction sk d) ∧
      selectS3Action acts FileOperationType.DELETE S3ObjectType.FILE sk d =
          some (acts.deleteS3ObjectAction sk)) := by
  refine ⟨?_, ?_, fun acts sk d => ⟨rfl, rfl, rfl, rfl⟩⟩
  · simp [ListObjectsV2CommandOutputToS3Object, convertContentsEntry, hp,
      jsSplit_of_not_contains k '.' hdot]
  · simp [classifySourceKey, hslash]

/-- C10 witness: the extensionless key `docs` is listed as a DIRECTORY
entry, classified FILE by the orchestrator, and dispatched to the
single-object copy action. -/
theorem c10_witness_concrete :
    (ListObjectsV2CommandOutputToS3Object
        (ListOutput.mk none none (some [AwsObject.mk (some "docs")]))).map
        (fun o => (o.type, o.key)) = [(S3ObjectType.DIRECTORY, "docs")] ∧
    classifySourceKey "docs" = S3ObjectType.FILE ∧
    selectS3Action wActs FileOperationType.COPY S3ObjectType.FILE "docs"
        "dest/docs" = some (wActs.copyS3ObjectAction "docs" "dest/docs") := by
  have h := c10_extensionless_key_classifiers_disagree "docs" none
    (by decide) (by decide) (by decide)
  exact ⟨h.1, h.2.1, (h.2.2 wActs "docs" "dest/docs").1⟩

end S3nBrowser
